import Mathlib

/-!
Verification development for the LearnCube report generator
(`main.js`): a shallow embedding of the normalization layer
(`processData`) and the report engines (`buildTeacherHourCountCSV`,
`buildTeacherGroupClassesCSV`, `buildOverviewData`,
`buildAllCoursesOverviewCSV`, `buildStudentReport`), together with
theorems settling the specification claims about them.

Modelling conventions:
* Raw CSV rows are `List String`; an absent cell behaves as the empty
  string (JS `undefined` and `''` are both falsy, and every use in the
  source either tests truthiness or applies `|| ''`).
* JS numbers that can be NaN are modelled as `Option Int` / `Option ℚ`
  with `none` playing NaN; comparisons with NaN are false and
  arithmetic on NaN yields NaN, as in JS.
* `Math.round x` is `⌊x + 1/2⌋`, which is Mathlib's `round`.
* `x.toFixed(2)` (re-read through `parseFloat`) is rounding to the
  nearest multiple of 1/100, ties toward +∞, i.e. `round (x*100) / 100`.
-/

/-- JS-style indexing `row[i]` into a CSV row: a missing cell (JS
`undefined`) is conflated with the empty string, which has the same
truthiness and the same `|| ''` behaviour. -/
def jsGet (row : List String) (i : Nat) : String := row.getD i ""

/-- JS whitespace, as far as the data at hand goes. -/
def isSpaceChar (c : Char) : Bool := c == ' ' || c == '\t' || c == '\n' || c == '\r'

/-- `String.trim`, implemented structurally over the character list so
that concrete inputs reduce inside the kernel. -/
def trimChars (cs : List Char) : List Char :=
  ((cs.dropWhile isSpaceChar).reverse.dropWhile isSpaceChar).reverse

/-- ASCII lower-casing of a character list (JS `toLowerCase` on the
ASCII data at hand). -/
def lowerChars (cs : List Char) : List Char :=
  cs.map fun c => if 'A' ≤ c && c ≤ 'Z' then Char.ofNat (c.toNat + 32) else c

/-- `parseBoolean` from the source: only `'true'` (case-insensitive,
trimmed) is true. -/
def parseBoolean (v : String) : Bool :=
  lowerChars (trimChars v.toList) == "true".toList

/-- Splits a character list on a separator character (structural model
of `String.split`, used for timestamp parsing). -/
def splitOnChar (sep : Char) : List Char → List (List Char)
  | [] => [[]]
  | c :: rest =>
    match splitOnChar sep rest with
    | [] => if c == sep then [[], [c]] else [[c]]
    | h :: t => if c == sep then [] :: h :: t else (c :: h) :: t

/-- Value of a digit list read in base 10. -/
def digitsVal (ds : List Char) : Nat :=
  ds.foldl (fun a c => a * 10 + (c.toNat - '0'.toNat)) 0

/-- `String.toNat?` on a character list: all characters must be digits
and there must be at least one. -/
def natOfChars? (ds : List Char) : Option Nat :=
  if ds.isEmpty || !ds.all (·.isDigit) then none else some (digitsVal ds)

/-- JS `parseInt(s, 10)`: trims, takes an optional sign and then the
longest digit prefix; NaN (`none`) when no digit is found. -/
def parseIntJs (s : String) : Option Int :=
  match trimChars s.toList with
  | '-' :: rest => (natOfChars? (rest.takeWhile (·.isDigit))).map (fun n => -(n : Int))
  | '+' :: rest => (natOfChars? (rest.takeWhile (·.isDigit))).map (fun n => (n : Int))
  | cs => (natOfChars? (cs.takeWhile (·.isDigit))).map (fun n => (n : Int))

/-- Digit-prefix part of JS `parseFloat`: an optional integer part and
an optional fractional part, at least one digit overall. -/
def parseFloatBody (body : List Char) (sgn : ℚ) : Option ℚ :=
  let ip := body.takeWhile (·.isDigit)
  let rest := body.drop ip.length
  let fp : List Char :=
    match rest with
    | '.' :: r => r.takeWhile (·.isDigit)
    | _ => []
  if ip.isEmpty && fp.isEmpty then none
  else some (sgn * ((digitsVal ip : ℚ) + (digitsVal fp : ℚ) / (10 ^ fp.length)))

/-- JS `parseFloat(s)` restricted to plain decimal literals (the only
shape the data carries: ratings such as `"4.5"`). Exponent suffixes are
not modelled. -/
def parseFloatJs (s : String) : Option ℚ :=
  match trimChars s.toList with
  | '-' :: rest => parseFloatBody rest (-1)
  | '+' :: rest => parseFloatBody rest 1
  | cs => parseFloatBody cs 1

/-- Days since 1970-01-01 of a proleptic-Gregorian civil date
(the standard days-from-civil computation, as performed by the JS
`Date` object for `"YYYY-MM-DDTHH:MM:SS"` strings). -/
def daysFromCivil (y m d : Int) : Int :=
  let y := y - (if m ≤ 2 then 1 else 0)
  let era := (if 0 ≤ y then y else y - 399) / 400
  let yoe := y - era * 400
  let mp := (m + 9) % 12
  let doy := (153 * mp + 2) / 5 + d - 1
  let doe := yoe * 365 + yoe / 4 - yoe / 100 + doy
  era * 146097 + doe - 719468

/-- Epoch seconds of a `"YYYY-MM-DD HH:MM:SS"` timestamp, the format the
source's comments document for both extracts; any other shape is an
invalid date (`none`, JS NaN). Models `new Date(s.replace(' ', 'T'))`. -/
def parseTimestamp (s : String) : Option Int :=
  match splitOnChar ' ' s.toList with
  | [date, time] =>
    match splitOnChar '-' date, splitOnChar ':' time with
    | [ys, ms, ds], [hs, mins, ss] =>
      match natOfChars? ys, natOfChars? ms, natOfChars? ds,
          natOfChars? hs, natOfChars? mins, natOfChars? ss with
      | some y, some mo, some d, some h, some mi, some sec =>
        some (86400 * daysFromCivil y mo d + 3600 * (h : Int) + 60 * (mi : Int) + (sec : Int))
      | _, _, _, _, _, _ => none
    | _, _ => none
  | _ => none

/-- `timestampDiff` from the source: 0 when either input is missing
(falsy); otherwise `Math.round((Date(b) - Date(a)) / 1000)`, which is
NaN (`none`) when either timestamp fails to parse and the exact
difference in seconds otherwise (the timestamps carry whole seconds, so
the `Math.round` is exact). -/
def timestampDiff (a b : String) : Option Int :=
  if a = "" || b = "" then some 0
  else
    match parseTimestamp a, parseTimestamp b with
    | some x, some y => some (y - x)
    | _, _ => none

/-- `clampTardiness` from the source, on JS numbers: `raw < -3600`
first, then `raw > d`; NaN comparisons are false, so a NaN `raw`
passes through and a NaN bound `d` leaves `raw` unclamped. -/
def clampTardiness (raw d : Option Int) : Option Int :=
  match raw with
  | none => none
  | some r =>
    if r < -3600 then some (-3600)
    else
      match d with
      | none => some r
      | some dd => if r > dd then some dd else some r

/-- Floor of a rational, written out on the numerator and denominator
so that concrete values reduce inside the kernel; `ratFloor_eq_floor`
identifies it with `⌊q⌋`. -/
def ratFloor (q : ℚ) : Int := q.num / q.den

theorem ratFloor_eq_floor (q : ℚ) : ratFloor q = ⌊q⌋ := (Rat.floor_def).symm

/-- `Math.round` on an exact rational: `⌊x + 1/2⌋` (half rounds toward
+∞), which is Mathlib's `round` by `jsRound_eq_round`. -/
def jsRound (q : ℚ) : Int := ratFloor (q + 1 / 2)

theorem jsRound_eq_round (q : ℚ) : jsRound q = round q := by
  rw [jsRound, ratFloor_eq_floor, round_eq]

/-- `x.toFixed(2)` read back as a number (`parseFloat(x.toFixed(2))`):
round to the nearest multiple of 1/100, ties toward +∞. -/
def round2 (q : ℚ) : ℚ := (jsRound (q * 100) : ℚ) / 100

/-- Addition of JS numbers where `none` is NaN: NaN propagates. -/
def jsAdd (a b : Option ℚ) : Option ℚ :=
  match a, b with
  | some x, some y => some (x + y)
  | _, _ => none

/-- `x < c` on a possibly-NaN JS number: false for NaN. -/
def jsLt (a : Option ℚ) (c : ℚ) : Bool :=
  match a with
  | some x => decide (x < c)
  | none => false

/-- Association-list lookup, keyed the way a JS object is. -/
def lookupA {α β : Type} [DecidableEq α] (k : α) : List (α × β) → Option β
  | [] => none
  | (a, b) :: rest => if a = k then some b else lookupA k rest

/-- JS-object update `m[k] = f(m[k] ?? d)`: updates in place when the
key is present (keeping first-insertion order) and appends otherwise. -/
def updAssoc {α β : Type} [DecidableEq α] (k : α) (d : β) (f : β → β) :
    List (α × β) → List (α × β)
  | [] => [(k, f d)]
  | (a, b) :: rest => if a = k then (a, f b) :: rest else (a, b) :: updAssoc k d f rest

theorem lookupA_updAssoc {α β : Type} [DecidableEq α] (k u : α) (d : β) (f : β → β)
    (m : List (α × β)) :
    lookupA u (updAssoc k d f m) =
      if u = k then some (f ((lookupA k m).getD d)) else lookupA u m := by
  induction m with
  | nil =>
    by_cases h : u = k
    · subst h; simp [updAssoc, lookupA]
    · simp [updAssoc, lookupA, h, Ne.symm h]
  | cons p rest ih =>
    obtain ⟨a, b⟩ := p
    by_cases hak : a = k
    · subst hak
      by_cases hu : u = a
      · subst hu; simp [updAssoc, lookupA]
      · simp [updAssoc, lookupA, hu, Ne.symm hu]
    · by_cases hu : u = a
      · subst hu
        simp [updAssoc, lookupA, hak, Ne.symm hak]
      · simp [updAssoc, lookupA, hak, hu, Ne.symm hu, ih]

/-! ## Normalized data model (output shape of `processData`) -/

/-- The teacher object built by `processData` (step 4). -/
structure TeacherRec where
  username : String
  firstName : String
  lastName : String
  attended : Bool
  /-- Seconds; `none` models JS NaN (unparseable join timestamps). -/
  tardiness : Option Int
  cancelled : Bool
  deriving Repr, DecidableEq

/-- A student object built by `processData` (step 3). Interval fields
are `none` for the empty string (timestamp absent) and `some none` for
a NaN printed by `toFixed` (timestamp present but unparseable). -/
structure StudentRec where
  username : String
  firstName : String
  lastName : String
  attended : Bool
  tardiness : Option Int
  cancelled : Bool
  cancelledBy : String
  cancelledTime : String
  cancelledInterval : Option (Option ℚ)
  enrolledTime : String
  enrolmentInterval : Option (Option ℚ)
  rating : String
  feedback : String
  deriving Repr, DecidableEq

/-- A class object built by `processData`, keyed by its slug. -/
structure Session where
  slug : String
  scheduledStart : String
  /-- Seconds between the start and end timestamps; `some 0` when either
  is absent, `none` (NaN) when present but unparseable. -/
  scheduledDuration : Option Int
  /-- Minutes column times 60; `none` (NaN) when non-numeric. -/
  actualDuration : Option Int
  description : String
  subject : String
  level : String
  teacherSummary : String
  company : String
  course_id : String
  available_seats : Option Int
  cancelledBy : String
  cancelledTime : String
  cancelledByStudent : Bool
  cancelledByTeacher : Bool
  cancelledByAdmin : Bool
  cancelledInterval : Option (Option ℚ)
  /-- `none` models the `{}` placeholder left when no participant row
  carries the teacher marker. -/
  teacher : Option TeacherRec
  students : List StudentRec
  deriving Repr, DecidableEq

/-- `cls.teacher.username`: `undefined` (conflated with `""`) when the
session has no teacher. -/
def teacherUsername (s : Session) : String :=
  match s.teacher with
  | some t => t.username
  | none => ""

/-- `Boolean(cls.teacher.attended)`: false when the session has no
teacher. -/
def teacherAttendedFlag (s : Session) : Bool :=
  match s.teacher with
  | some t => t.attended
  | none => false

/-- `Boolean(cls.teacher.cancelled)`. -/
def teacherCancelledFlag (s : Session) : Bool :=
  match s.teacher with
  | some t => t.cancelled
  | none => false

/-- `cls.teacher.tardiness`: `undefined` behaves as NaN in the
arithmetic it feeds, hence `none`. -/
def teacherTardiness (s : Session) : Option Int :=
  match s.teacher with
  | some t => t.tardiness
  | none => none

/-! ## `processData`: raw rows → normalized sessions -/

/-- `(timestampDiff a b / 3600).toFixed(2)`, read back as a number. -/
def intervalHours (a b : String) : Option ℚ :=
  (timestampDiff a b).map (fun d => round2 ((d : ℚ) / 3600))

/-- The teacher-marker test `p[9]?.trim().toLowerCase() === 'true'`
(the same computation as `parseBoolean`). -/
def isTeacherRow (p : List String) : Bool := parseBoolean (jsGet p 9)

/-- One student object (step 3 of `processData`). -/
def mkStudent (scheduledStart : String) (scheduledDuration : Option Int)
    (pr : List String) : StudentRec :=
  let enrolledAt := jsGet pr 22
  let studentCancelledTime := jsGet pr 14
  { username := jsGet pr 4
    firstName := jsGet pr 5
    lastName := jsGet pr 6
    attended := parseBoolean (jsGet pr 10)
    tardiness := clampTardiness (timestampDiff (jsGet pr 3) (jsGet pr 11)) scheduledDuration
    cancelled := parseBoolean (jsGet pr 12)
    cancelledBy := jsGet pr 13
    cancelledTime := studentCancelledTime
    cancelledInterval :=
      if studentCancelledTime != "" then some (intervalHours studentCancelledTime scheduledStart)
      else none
    enrolledTime := enrolledAt
    enrolmentInterval :=
      if enrolledAt != "" then some (intervalHours enrolledAt scheduledStart) else none
    rating := jsGet pr 15
    feedback := jsGet pr 16 }

/-- The teacher object (step 4 of `processData`). -/
def mkTeacher (scheduledDuration : Option Int) (pr : List String) : TeacherRec :=
  { username := jsGet pr 4
    firstName := jsGet pr 5
    lastName := jsGet pr 6
    attended := parseBoolean (jsGet pr 10)
    tardiness := clampTardiness (timestampDiff (jsGet pr 3) (jsGet pr 11)) scheduledDuration
    cancelled := parseBoolean (jsGet pr 12) }

/-- One class object from one class row (`processData` body). In the
source, the three cancellation flags and the interval are assigned
inside `if (cancelledBy)`, which the conjuncts below reproduce. -/
def buildSession (participantsData : List (List String)) (cs : List String) : Session :=
  let slug := jsGet cs 6
  let scheduledStart := jsGet cs 0
  let scheduledDuration := timestampDiff (jsGet cs 0) (jsGet cs 1)
  let cancelledBy := jsGet cs 22
  let cancelledTime := jsGet cs 23
  let participantsRows := participantsData.filter (fun p => jsGet p 2 == slug)
  let enrolled := participantsRows.filter (fun p => !isTeacherRow p)
  let students := enrolled.map (mkStudent scheduledStart scheduledDuration)
  let teacher := (participantsRows.find? isTeacherRow).map (mkTeacher scheduledDuration)
  let teacherName :=
    match teacher with
    | some t => t.username
    | none => ""
  let studentNames := students.map (·.username)
  { slug := slug
    scheduledStart := scheduledStart
    scheduledDuration := scheduledDuration
    actualDuration := (parseIntJs (jsGet cs 4)).map (· * 60)
    description := jsGet cs 9
    subject := jsGet cs 11
    level := jsGet cs 12
    teacherSummary := jsGet cs 14
    company := jsGet cs 5
    course_id := jsGet cs 29
    available_seats := parseIntJs (jsGet cs 10)
    cancelledBy := cancelledBy
    cancelledTime := cancelledTime
    cancelledByStudent := cancelledBy != "" && studentNames.contains cancelledBy
    cancelledByTeacher := cancelledBy != "" && cancelledBy == teacherName
    cancelledByAdmin := cancelledBy != ""
      && !(studentNames.contains cancelledBy) && !(cancelledBy == teacherName)
    cancelledInterval :=
      if cancelledBy != "" && cancelledTime != "" then
        some (intervalHours cancelledTime scheduledStart)
      else none
    teacher := teacher
    students := students }

/-- JS-object assignment `out[slug] = cls`: overwrites in place
(keeping first-insertion order) or appends. -/
def setAssoc {α β : Type} [DecidableEq α] (k : α) (v : β) : List (α × β) → List (α × β)
  | [] => [(k, v)]
  | (a, b) :: rest => if a = k then (a, v) :: rest else (a, b) :: setAssoc k v rest

/-- `processData`: builds the slug-keyed map of sessions, skipping
class rows without a slug; a duplicate slug overwrites the earlier
session, as JS object assignment does. -/
def processData (classesData participantsData : List (List String)) :
    List (String × Session) :=
  classesData.foldl
    (fun out cs =>
      let slug := jsGet cs 6
      if slug = "" then out else setAssoc slug (buildSession participantsData cs) out)
    []

/-! ## Compensation engine (`buildTeacherHourCountCSV`, `main.js`) -/

/-- `cls.available_seats === 1 ? 'private' : 'group'`. -/
inductive ClassType
  | privateClass
  | groupClass
  deriving Repr, DecidableEq

/-- The `classTypeFilter` setting: `'private' | 'group' | 'both'`. -/
inductive ClassTypeFilter
  | privateOnly
  | groupOnly
  | both
  deriving Repr, DecidableEq

/-- Negation of the skip test
`classTypeFilter !== 'both' && classTypeFilter !== type`. -/
def filterMatches (f : ClassTypeFilter) (t : ClassType) : Bool :=
  match f, t with
  | .both, _ => true
  | .privateOnly, .privateClass => true
  | .groupOnly, .groupClass => true
  | _, _ => false

/-- The settings object consumed by `buildTeacherHourCountCSV`. -/
structure CompSettings where
  tardinessLimit : ℚ
  cancellationWindow : ℚ
  penaliseTardiness : Bool
  payLastMinuteCancellation : Bool
  payStudentNoShow : Bool
  /-- Percentage, 0–100. -/
  studentNoShowRate : ℚ
  classTypeFilter : ClassTypeFilter
  deriving Repr, DecidableEq

/-- `const studentNoShowFrac = payStudentNoShow ? studentNoShowRate / 100 : 0`. -/
def studentNoShowFrac (st : CompSettings) : ℚ :=
  if st.payStudentNoShow then st.studentNoShowRate / 100 else 0

/-- One per-duration, per-type counter bucket. The source's `group`
bucket literal omits `cancelled`; it is never read for group buckets,
so it is carried as 0 here. -/
structure CompBucket where
  attended : Nat
  noShow : Nat
  cancelled : Nat
  late : Nat
  studentNoShow : Nat
  deriving Repr, DecidableEq

def emptyCompBucket : CompBucket :=
  { attended := 0, noShow := 0, cancelled := 0, late := 0, studentNoShow := 0 }

/-- `durationBuckets[durationMin]`: the pair of buckets initialised
together. -/
structure DurBuckets where
  privateBucket : CompBucket
  groupBucket : CompBucket
  deriving Repr, DecidableEq

def emptyDurBuckets : DurBuckets :=
  { privateBucket := emptyCompBucket, groupBucket := emptyCompBucket }

def setTypeBucket (ty : ClassType) (f : CompBucket → CompBucket) (db : DurBuckets) : DurBuckets :=
  match ty with
  | .privateClass => { db with privateBucket := f db.privateBucket }
  | .groupClass => { db with groupBucket := f db.groupBucket }

def typeBucket (ty : ClassType) (db : DurBuckets) : CompBucket :=
  match ty with
  | .privateClass => db.privateBucket
  | .groupClass => db.groupBucket

/-- `cls.available_seats === 1 ? 'private' : 'group'`: a strict
equality test, so capacity 0 and NaN both classify as group. -/
def classTypeOf (s : Session) : ClassType :=
  if s.available_seats = some 1 then .privateClass else .groupClass

/-- `Math.round(cls.scheduledDuration / 60)`; NaN propagates. -/
def roundedDurationMin (s : Session) : Option Int :=
  s.scheduledDuration.map (fun d => jsRound ((d : ℚ) / 60))

/-- `Math.round(cls.teacher.tardiness / 60)`; NaN propagates. -/
def teacherTardinessMin (s : Session) : Option Int :=
  (teacherTardiness s).map (fun x => jsRound ((x : ℚ) / 60))

/-- `penaliseTardiness && teacherTardinessMin > tardinessLimit`
(false when the tardiness is NaN). -/
def lateCond (st : CompSettings) (s : Session) : Bool :=
  st.penaliseTardiness &&
    (match teacherTardinessMin s with
     | some m => decide ((m : ℚ) > st.tardinessLimit)
     | none => false)

/-- The per-student test of step 1a: the student cancelled, the
cancellation was not attributed to the teacher, and
`timestampDiff(scheduledStart, cancelledTime) / 3600 < cancellationWindow`
(false when the difference is NaN). -/
def lateCancelQualifies (st : CompSettings) (s : Session) (tname : String)
    (stu : StudentRec) : Bool :=
  stu.cancelled && stu.cancelledBy != tname &&
    (match timestampDiff s.scheduledStart stu.cancelledTime with
     | some d => decide ((d : ℚ) / 3600 < st.cancellationWindow)
     | none => false)

/-- Step 1c's test. The `Array.isArray(cls.students)` conjunct is
always true for normalized sessions and is dropped. -/
def allStudentsNoShowCond (s : Session) : Bool :=
  teacherAttendedFlag s && !teacherCancelledFlag s &&
    !s.students.isEmpty && s.students.all (fun x => !x.attended)

/-- Steps 1a–1c applied to one session's bucket. Step 1a uses
`cls.students.forEach` whose callback ends in `return` after
`bucket.cancelled++`; `return` inside a `forEach` callback only ends
that iteration, so the counter grows by one per qualifying student,
not by at most one per session. -/
def updateBucket (st : CompSettings) (s : Session) (ty : ClassType) (tname : String)
    (b : CompBucket) : CompBucket :=
  let b :=
    if ty = ClassType.privateClass then
      if st.payLastMinuteCancellation then
        { b with cancelled :=
            b.cancelled + (s.students.filter (lateCancelQualifies st s tname)).length }
      else b
    else b
  let b :=
    if teacherAttendedFlag s then
      { b with attended := b.attended + 1,
               late := b.late + (if lateCond st s then 1 else 0) }
    else { b with noShow := b.noShow + 1 }
  if allStudentsNoShowCond s then { b with studentNoShow := b.studentNoShow + 1 } else b

/-- The per-teacher accumulator `teacherReports[t].durations`. -/
abbrev TeacherBuckets := List (Option Int × DurBuckets)

/-- `teacherReports`: teacher → duration (rounded minutes, NaN
possible) → type → bucket. -/
abbrev CompAcc := List (String × TeacherBuckets)

/-- Step 1 of `buildTeacherHourCountCSV` for one session: skip when
there is no teacher username or the class type is filtered out,
otherwise update the session's bucket. (The source also inserts the
session's rounded duration into `durationsSet`, which only shapes the
emitted columns, not any counter.) -/
def compStep (st : CompSettings) (acc : CompAcc) (s : Session) : CompAcc :=
  let tname := teacherUsername s
  if tname = "" then acc
  else
    let ty := classTypeOf s
    if !filterMatches st.classTypeFilter ty then acc
    else
      updAssoc tname []
        (updAssoc (roundedDurationMin s) emptyDurBuckets
          (setTypeBucket ty (updateBucket st s ty tname)))
        acc

/-- The whole of step 1, over the model in key order. -/
def compReports (st : CompSettings) (sessions : List Session) : CompAcc :=
  sessions.foldl (compStep st) []

/-- The `netCount` computed in `pushType` from a bucket's counters:
`baseCount = attended`, minus `late` when `penaliseTardiness`, plus
`cancelled` for private buckets when `payLastMinuteCancellation`, minus
`studentNoShow * (1 - studentNoShowFrac)`, then `toFixed(2)` re-read
through `parseFloat`. -/
def netCountOf (st : CompSettings) (ty : ClassType) (b : CompBucket) : ℚ :=
  let base1 : ℚ := (b.attended : ℚ)
  let base2 : ℚ := if st.penaliseTardiness then base1 - (b.late : ℚ) else base1
  let base3 : ℚ :=
    if ty = ClassType.privateClass then
      if st.payLastMinuteCancellation then base2 + (b.cancelled : ℚ) else base2
    else base2
  let deduction : ℚ := (b.studentNoShow : ℚ) * (1 - studentNoShowFrac st)
  round2 (base3 - deduction)

/-! ## Teacher performance, group side (`buildTeacherGroupClassesCSV`) -/

/-- The per-teacher accumulator of `buildTeacherGroupClassesCSV`.
Sums that JS could turn into NaN are `Option ℚ`. -/
structure GroupStats where
  totalBooked : Nat
  cancelledByTeacher : Nat
  cancelledByAdmin : Nat
  totalRemaining : Nat
  teacherNoShows : Nat
  classStudentNoShowClasses : Nat
  classStudentNoShowTotal : Nat
  teacherTardinessSum : Option ℚ
  teacherTardinessCount : Nat
  studentTardinessSum : Option ℚ
  studentTardinessCount : Nat
  ratingSum : ℚ
  ratingCount : Nat
  feedbackClassCount : Nat
  deriving Repr, DecidableEq

def emptyGroupStats : GroupStats :=
  { totalBooked := 0, cancelledByTeacher := 0, cancelledByAdmin := 0, totalRemaining := 0
    teacherNoShows := 0, classStudentNoShowClasses := 0, classStudentNoShowTotal := 0
    teacherTardinessSum := some 0, teacherTardinessCount := 0
    studentTardinessSum := some 0, studentTardinessCount := 0
    ratingSum := 0, ratingCount := 0, feedbackClassCount := 0 }

/-- The students loop of `buildTeacherGroupClassesCSV`. The
`typeof st.tardiness === 'number'` guard is always satisfied (the
normalizer always stores a JS number there, possibly NaN), so the sum
and count always advance. -/
def groupStudentFold (g0 : GroupStats) (students : List StudentRec) : GroupStats :=
  students.foldl
    (fun g stu =>
      let g := { g with
        studentTardinessSum := jsAdd g.studentTardinessSum (stu.tardiness.map (fun x => (x : ℚ) / 60))
        studentTardinessCount := g.studentTardinessCount + 1 }
      let r := parseFloatJs stu.rating
      let hasFB := !(trimChars stu.feedback.toList).isEmpty || r.isSome
      let g :=
        match r with
        | some rv => { g with ratingSum := g.ratingSum + rv, ratingCount := g.ratingCount + 1 }
        | none => g
      if hasFB then { g with feedbackClassCount := g.feedbackClassCount + 1 } else g)
    g0

/-- The per-session body of `buildTeacherGroupClassesCSV`. -/
def applyGroupStats (cls : Session) (g : GroupStats) : GroupStats :=
  let g := { g with totalBooked := g.totalBooked + 1 }
  let g :=
    if cls.cancelledByTeacher then { g with cancelledByTeacher := g.cancelledByTeacher + 1 }
    else if cls.cancelledByAdmin then { g with cancelledByAdmin := g.cancelledByAdmin + 1 }
    else g
  let g :=
    if cls.cancelledBy = "" then
      let g := { g with totalRemaining := g.totalRemaining + 1 }
      let g := if !teacherAttendedFlag cls then { g with teacherNoShows := g.teacherNoShows + 1 } else g
      if cls.students.any (fun stu => !stu.attended && !stu.cancelled) then
        { g with classStudentNoShowClasses := g.classStudentNoShowClasses + 1 }
      else g
    else g
  let g := { g with classStudentNoShowTotal :=
      g.classStudentNoShowTotal
        + (cls.students.filter (fun (stu : StudentRec) => !stu.attended && !stu.cancelled)).length }
  let g := { g with
    teacherTardinessSum := jsAdd g.teacherTardinessSum ((teacherTardiness cls).map (fun x => (x : ℚ) / 60))
    teacherTardinessCount := g.teacherTardinessCount + 1 }
  groupStudentFold g cls.students

/-- One session of `buildTeacherGroupClassesCSV`: the skip is
`available_seats <= 1`, which is false for NaN, so sessions with a
non-numeric capacity are not skipped; then sessions without a teacher
username are skipped. -/
def groupStep (acc : List (String × GroupStats)) (cls : Session) : List (String × GroupStats) :=
  let notSkipped : Bool :=
    match cls.available_seats with
    | some n => decide (1 < n)
    | none => true
  if !notSkipped then acc
  else
    let name := teacherUsername cls
    if name = "" then acc
    else updAssoc name emptyGroupStats (applyGroupStats cls) acc

/-- The whole aggregation of `buildTeacherGroupClassesCSV`. -/
def groupClassesStats (sessions : List Session) : List (String × GroupStats) :=
  sessions.foldl groupStep []

/-! ## Overview tallies (`buildOverviewData`) -/

/-- One duration bucket of `buildOverviewData.tally`. -/
structure TallyBucket where
  total : Nat
  completed : Nat
  cancelled : Nat
  cancelledByStudent : Nat
  cancelledByTeacher : Nat
  cancelledByAdmin : Nat
  studentCancelledLate : Nat
  teacherNoShow : Nat
  studentNoShow : Nat
  bothNoShow : Nat
  deriving Repr, DecidableEq

def emptyTallyBucket : TallyBucket :=
  { total := 0, completed := 0, cancelled := 0, cancelledByStudent := 0, cancelledByTeacher := 0
    cancelledByAdmin := 0, studentCancelledLate := 0, teacherNoShow := 0, studentNoShow := 0
    bothNoShow := 0 }

/-- The filter of `tally`:
`type === 'private' ? available_seats === 1 : available_seats > 1`
(false for NaN capacities on the group side). -/
def tallyTypeMatches (ty : ClassType) (cls : Session) : Bool :=
  match ty with
  | .privateClass => decide (cls.available_seats = some 1)
  | .groupClass =>
    match cls.available_seats with
    | some n => decide (1 < n)
    | none => false

/-- `cls.cancelledByStudent && cls.cancelledInterval !== '' &&
parseFloat(cls.cancelledInterval) < cancellationWindow`
(false when the stored interval is the NaN string). -/
def lateStudentCancel (w : ℚ) (cls : Session) : Bool :=
  cls.cancelledByStudent &&
    (match cls.cancelledInterval with
     | some iv => jsLt iv w
     | none => false)

/-- One session's update of its duration bucket in `tally`. -/
def tallyUpd (w : ℚ) (ty : ClassType) (cls : Session) (b : TallyBucket) : TallyBucket :=
  let b := { b with total := b.total + 1 }
  let tA := teacherAttendedFlag cls
  let cC := cls.cancelledBy != ""
  let b := if tA && !cC then { b with completed := b.completed + 1 } else b
  let b :=
    if cC then
      let b := { b with cancelled := b.cancelled + 1 }
      let b := if cls.cancelledByStudent then { b with cancelledByStudent := b.cancelledByStudent + 1 } else b
      let b := if cls.cancelledByTeacher then { b with cancelledByTeacher := b.cancelledByTeacher + 1 } else b
      let b := if cls.cancelledByAdmin then { b with cancelledByAdmin := b.cancelledByAdmin + 1 } else b
      if lateStudentCancel w cls then { b with studentCancelledLate := b.studentCancelledLate + 1 } else b
    else b
  let b := if !tA && !cC then { b with teacherNoShow := b.teacherNoShow + 1 } else b
  let allAbsent := !cls.students.isEmpty && cls.students.all (fun stu => !stu.attended)
  let b :=
    match ty with
    | .groupClass => if allAbsent then { b with studentNoShow := b.studentNoShow + 1 } else b
    | .privateClass => if tA && allAbsent then { b with studentNoShow := b.studentNoShow + 1 } else b
  if !tA && !cC && allAbsent then { b with bothNoShow := b.bothNoShow + 1 } else b

/-- `tally(type)`: duration (rounded minutes) → bucket, over the
sessions passing the type filter. -/
def tallyByDuration (w : ℚ) (ty : ClassType) (sessions : List Session) :
    List (Option Int × TallyBucket) :=
  (sessions.filter (tallyTypeMatches ty)).foldl
    (fun m cls => updAssoc (roundedDurationMin cls) emptyTallyBucket (tallyUpd w ty cls) m)
    []

/-- `buildOverviewData`: the `(groupData, privateData)` pair. -/
def buildOverviewData (w : ℚ) (sessions : List Session) :
    List (Option Int × TallyBucket) × List (Option Int × TallyBucket) :=
  (tallyByDuration w .groupClass sessions, tallyByDuration w .privateClass sessions)

/-! ## Course overview (`buildAllCoursesOverviewCSV`) -/

/-- `cls['course_id'] || 'NO_ID'`. -/
def courseKey (cls : Session) : String :=
  if cls.course_id = "" then "NO_ID" else cls.course_id

/-- `byCourse`: course id → its classes, in model key order. (The
source then sorts each group chronologically, which permutes the
group but does not change any of the counts below.) -/
def groupByCourse (sessions : List Session) : List (String × List Session) :=
  sessions.foldl
    (fun m cls => updAssoc (courseKey cls) [] (fun l => l ++ [cls]) m)
    []

/-- All student participations of a course group, in order. -/
def courseParticipations (g : List Session) : List StudentRec :=
  (g.map (·.students)).flatten

/-- `attendedCount` of a course group. -/
def attendedCount (g : List Session) : Nat :=
  (courseParticipations g).countP (·.attended)

/-- `totalStudentParticipations` of a course group. -/
def totalParticipations (g : List Session) : Nat :=
  (courseParticipations g).length

/-- The `attendance rate (%)` cell: blank (`none`) when there are no
participations (0 is falsy), otherwise
`Math.round(attended / total * 100)`. -/
def attendanceRateOf (g : List Session) : Option Int :=
  if totalParticipations g = 0 then none
  else some (jsRound ((attendedCount g : ℚ) / (totalParticipations g : ℚ) * 100))

/-! ## Student report (`buildStudentReport`) -/

/-- `filterMode`: `'all' | 'company' | 'custom'`. -/
inductive FilterMode
  | all
  | company
  | custom
  deriving Repr, DecidableEq

/-- The options object of `buildStudentReport`. -/
structure StudentOptions where
  cancellationWindow : ℚ
  companyId : String
  filterMode : FilterMode
  customList : List String
  deriving Repr, DecidableEq

/-- Negation of the class-level skip:
`filterMode === 'company' && companyId !== 'ALL' && String(cls.company) !== String(companyId)`. -/
def classIncluded (opts : StudentOptions) (cls : Session) : Bool :=
  match opts.filterMode with
  | .company => !(opts.companyId != "ALL" && cls.company != opts.companyId)
  | _ => true

/-- Negation of the student-level skip:
`filterMode === 'custom' && !customList.includes(username)`. -/
def studentIncluded (opts : StudentOptions) (u : String) : Bool :=
  match opts.filterMode with
  | .custom => opts.customList.contains u
  | _ => true

/-- The per-student accumulator of `buildStudentReport`. Interval list
entries and the tardiness sum are `Option ℚ` because the JS values can
be NaN (unparseable dates). -/
structure StudentAgg where
  username : String
  company : String
  totalGroup : Nat
  totalPrivate : Nat
  attended : Nat
  noShow : Nat
  cancelled : Nat
  cancelledLate : Nat
  cancellationIntervals : List (Option ℚ)
  ratingSum : ℚ
  ratingCount : Nat
  enrolmentIntervals : List (Option ℚ)
  tardinessSum : Option ℚ
  tardinessCount : Nat
  classDates : List (Option Int)
  deriving Repr, DecidableEq

/-- The fresh record built on first sight of a student: its `company`
is the company of the class being processed. -/
def initStudentAgg (u comp : String) : StudentAgg :=
  { username := u, company := comp, totalGroup := 0, totalPrivate := 0, attended := 0
    noShow := 0, cancelled := 0, cancelledLate := 0, cancellationIntervals := []
    ratingSum := 0, ratingCount := 0, enrolmentIntervals := [], tardinessSum := some 0
    tardinessCount := 0, classDates := [] }

/-- `(dateA - dateB) / 3600e3` on parsed dates, in hours; NaN when
either date is invalid. -/
def dateDiffHours (a b : Option Int) : Option ℚ :=
  match a, b with
  | some x, some y => some (((x - y : Int) : ℚ) / 3600)
  | _, _ => none

/-- The statistics update applied to one student's record for one
class (everything in the `cls.students.forEach` body after the record
exists). It never touches `username` or `company`. -/
def applyStudentStats (opts : StudentOptions) (cls : Session) (stu : StudentRec)
    (a : StudentAgg) : StudentAgg :=
  let startD := parseTimestamp cls.scheduledStart
  let a :=
    if cls.available_seats = some 1 then { a with totalPrivate := a.totalPrivate + 1 }
    else { a with totalGroup := a.totalGroup + 1 }
  let a := { a with classDates := a.classDates ++ [startD] }
  let a :=
    if stu.cancelled then
      let a := { a with cancelled := a.cancelled + 1 }
      if stu.cancelledTime != "" then
        let diffHr := dateDiffHours startD (parseTimestamp stu.cancelledTime)
        let a := { a with cancellationIntervals := a.cancellationIntervals ++ [diffHr] }
        if jsLt diffHr opts.cancellationWindow then { a with cancelledLate := a.cancelledLate + 1 }
        else a
      else a
    else if stu.attended then { a with attended := a.attended + 1 }
    else { a with noShow := a.noShow + 1 }
  let a :=
    if stu.enrolledTime != "" then
      { a with enrolmentIntervals :=
          a.enrolmentIntervals ++ [dateDiffHours startD (parseTimestamp stu.enrolledTime)] }
    else a
  let a := { a with
    tardinessSum := jsAdd a.tardinessSum (stu.tardiness.map (fun x => (x : ℚ) / 60))
    tardinessCount := a.tardinessCount + 1 }
  match parseFloatJs stu.rating with
  | some r => { a with ratingSum := a.ratingSum + r, ratingCount := a.ratingCount + 1 }
  | none => a

/-- One student row inside one class: skip empty usernames and
custom-filtered students; create the record on first sight (with the
current class's company) and update its statistics. -/
def studentUpd (opts : StudentOptions) (cls : Session)
    (acc : List (String × StudentAgg)) (stu : StudentRec) : List (String × StudentAgg) :=
  if stu.username = "" then acc
  else if !studentIncluded opts stu.username then acc
  else
    updAssoc stu.username (initStudentAgg stu.username cls.company)
      (applyStudentStats opts cls stu) acc

/-- One class of `buildStudentReport`'s aggregation. -/
def studentStep (opts : StudentOptions) (acc : List (String × StudentAgg)) (cls : Session) :
    List (String × StudentAgg) :=
  if !classIncluded opts cls then acc
  else cls.students.foldl (studentUpd opts cls) acc

/-- The whole aggregation of `buildStudentReport`, over the model in
key order. -/
def studentAggs (opts : StudentOptions) (sessions : List Session) :
    List (String × StudentAgg) :=
  sessions.foldl (studentStep opts) []

/-- A participation row that creates or updates `u`'s record: the
username is `u`, non-empty, and not excluded by the custom filter. -/
def rowCreates (opts : StudentOptions) (u : String) (stu : StudentRec) : Bool :=
  stu.username == u && stu.username != "" && studentIncluded opts stu.username

/-- A class both passes the class-level filter and contains a student
row that creates or updates `u`'s record. -/
def sessionIncludesStudent (opts : StudentOptions) (u : String) (cls : Session) : Bool :=
  classIncluded opts cls && cls.students.any (rowCreates opts u)

/-! ## Concrete raw rows used to instantiate the claims

Class-row layout (indices used by the source): 0 start, 1 end,
4 actual minutes, 5 company, 6 slug, 10 seats, 22 cancellation actor,
23 cancellation time, 29 course id. Participant-row layout: 2 session
slug, 3 scheduled join, 4 username, 9 teacher marker, 10 attended,
11 actual join, 12 cancelled, 13 cancelled by, 14 cancelled time,
15 rating, 16 feedback, 22 enrolled time. -/

/-- Private class `c1` (seats 1), no timestamps. -/
def clsRowC2 : List String := ["", "", "", "", "", "", "c1", "", "", "", "1"]

/-- Teacher row for `c1`: username `t1`, attended. -/
def teacherRowC2 : List String := ["", "", "c1", "", "t1", "", "", "", "", "true", "true"]

/-- A cancelled student of `c1` (no actor, no cancellation time, so the
interval to the start is 0 hours, inside any positive window). -/
def studentRowC2a : List String := ["", "", "c1", "", "s1", "", "", "", "", "", "", "", "true"]

/-- A second cancelled student of `c1`, same shape. -/
def studentRowC2b : List String := ["", "", "c1", "", "s2", "", "", "", "", "", "", "", "true"]

def sessionC2 : Session := buildSession [teacherRowC2, studentRowC2a, studentRowC2b] clsRowC2

def settingsC2 : CompSettings :=
  { tardinessLimit := 5, cancellationWindow := 24, penaliseTardiness := true
    payLastMinuteCancellation := true, payStudentNoShow := false
    studentNoShowRate := 0, classTypeFilter := .both }

/-- The `cancelled` counter of a teacher's private bucket at a given
duration, read out of the accumulator. -/
def privCancelledCount (acc : CompAcc) (t : String) (d : Option Int) : Option Nat :=
  (lookupA t acc).bind fun m => (lookupA d m).map fun db => db.privateBucket.cancelled

/-- The `studentNoShow` counter of a teacher's private bucket. -/
def privStudentNoShowCount (acc : CompAcc) (t : String) (d : Option Int) : Option Nat :=
  (lookupA t acc).bind fun m => (lookupA d m).map fun db => db.privateBucket.studentNoShow

/-- Private class `c3` cancelled (at session level) by `admin1`. -/
def clsRowC3 : List String :=
  ["", "", "", "", "", "", "c3", "", "", "", "1", "", "", "", "", "", "", "", "", "", "", "",
   "admin1"]

/-- Teacher of `c3`: attended, own cancelled flag false. -/
def teacherRowC3 : List String := ["", "", "c3", "", "t1", "", "", "", "", "true", "true", "", "false"]

/-- Absent student of `c3`. -/
def studentRowC3 : List String := ["", "", "c3", "", "s1", "", "", "", "", "", "false"]

def sessionC3 : Session := buildSession [teacherRowC3, studentRowC3] clsRowC3

def settingsC3 : CompSettings :=
  { tardinessLimit := 5, cancellationWindow := 24, penaliseTardiness := false
    payLastMinuteCancellation := false, payStudentNoShow := false
    studentNoShowRate := 0, classTypeFilter := .both }

/-- Group class `c4` cancelled by the actor `alice`. -/
def clsRowC4 : List String :=
  ["", "", "", "", "", "", "c4", "", "", "", "5", "", "", "", "", "", "", "", "", "", "", "",
   "alice"]

/-- Teacher of `c4`, also named `alice`. -/
def teacherRowC4 : List String := ["", "", "c4", "", "alice", "", "", "", "", "true", "true"]

/-- A student of `c4` who shares the username `alice`. -/
def studentRowC4 : List String := ["", "", "c4", "", "alice", "", "", "", "", "", "false"]

def sessionC4 : Session := buildSession [teacherRowC4, studentRowC4] clsRowC4

/-- Witness rows for C4: actor matches only the teacher. -/
def clsRowC4w : List String :=
  ["", "", "", "", "", "", "c4w", "", "", "", "5", "", "", "", "", "", "", "", "", "", "", "",
   "bob"]

def teacherRowC4w : List String := ["", "", "c4w", "", "bob", "", "", "", "", "true", "true"]

def studentRowC4w : List String := ["", "", "c4w", "", "carol", "", "", "", "", "", "true"]

/-- Class `c5` whose end timestamp lies three hours before its start,
so `scheduledDuration = -10800` seconds. -/
def clsRowC5 : List String :=
  ["2023-01-15 10:00:00", "2023-01-15 07:00:00", "", "", "", "", "c5", "", "", "", "1"]

/-- Student of `c5` who joined exactly on time (raw tardiness 0). -/
def studentRowC5 : List String :=
  ["", "", "c5", "2023-01-15 10:00:00", "s1", "", "", "", "", "", "",
   "2023-01-15 10:00:00"]

def sessionC5 : Session := buildSession [studentRowC5] clsRowC5

/-- Witness rows for C5: a one-hour class, student two minutes late. -/
def clsRowC5w : List String :=
  ["2023-01-15 10:00:00", "2023-01-15 11:00:00", "", "", "", "", "c5w", "", "", "", "1"]

def studentRowC5w : List String :=
  ["", "", "c5w", "2023-01-15 10:00:00", "s1", "", "", "", "", "", "",
   "2023-01-15 10:02:00"]

/-- Group class `c7` with seat capacity 0 and a teacher. -/
def clsRowC7 : List String := ["", "", "", "", "", "", "c7", "", "", "", "0"]

def teacherRowC7 : List String := ["", "", "c7", "", "t1", "", "", "", "", "true", "true"]

def sessionC7 : Session := buildSession [teacherRowC7] clsRowC7

/-- Group class `c8` (seats 5) with one student row and no
teacher-marked row at all. -/
def clsRowC8 : List String := ["", "", "", "", "", "", "c8", "", "", "", "5"]

def studentRowC8 : List String := ["", "", "c8", "", "s1", "", "", "", "", "", "false"]

def sessionC8 : Session := buildSession [studentRowC8] clsRowC8

/-- A teacher record that did not attend, for the C8 comparison. -/
def absentTeacherRec : TeacherRec :=
  { username := "tx", firstName := "", lastName := "", attended := false
    tardiness := some 0, cancelled := false }

/-- Course `crs9` with two classes: one student attends the first and
misses the second. -/
def clsRowC9a : List String :=
  ["", "", "", "", "", "", "c9a", "", "", "", "5", "", "", "", "", "", "", "", "", "", "", "",
   "", "", "", "", "", "", "", "crs9"]

def clsRowC9b : List String :=
  ["", "", "", "", "", "", "c9b", "", "", "", "5", "", "", "", "", "", "", "", "", "", "", "",
   "", "", "", "", "", "", "", "crs9"]

def studentRowC9a : List String := ["", "", "c9a", "", "s1", "", "", "", "", "", "true"]

def studentRowC9b : List String := ["", "", "c9b", "", "s1", "", "", "", "", "", "false"]

def sessionsC9 : List Session :=
  (processData [clsRowC9a, clsRowC9b] [studentRowC9a, studentRowC9b]).map (·.2)

/-- Two classes in different companies sharing the student `st1`. -/
def clsRowC10a : List String := ["", "", "", "", "", "compA", "ca", "", "", "", "5"]

def clsRowC10b : List String := ["", "", "", "", "", "compB", "cb", "", "", "", "5"]

def studentRowC10a : List String := ["", "", "ca", "", "st1", "", "", "", "", "", "true"]

def studentRowC10b : List String := ["", "", "cb", "", "st1", "", "", "", "", "", "true"]

def sessionsC10 : List Session :=
  (processData [clsRowC10a, clsRowC10b] [studentRowC10a, studentRowC10b]).map (·.2)

def optionsC10 : StudentOptions :=
  { cancellationWindow := 24, companyId := "ALL", filterMode := .all, customList := [] }

/-- The aggregate `buildStudentReport` builds for `st1` over
`sessionsC10`. -/
def aggC10 : StudentAgg :=
  { username := "st1", company := "compA", totalGroup := 2, totalPrivate := 0, attended := 2
    noShow := 0, cancelled := 0, cancelledLate := 0, cancellationIntervals := []
    ratingSum := 0, ratingCount := 0, enrolmentIntervals := [], tardinessSum := some 0
    tardinessCount := 2, classDates := [none, none] }

/-- "Exactly one of three flags": the mutual-exclusivity-plus-
exhaustiveness shape claimed of the cancellation attribution. -/
def exactlyOneFlag (a b c : Bool) : Prop :=
  (a = true ∧ b = false ∧ c = false) ∨ (a = false ∧ b = true ∧ c = false) ∨
  (a = false ∧ b = false ∧ c = true)

/-- C4 witness session: the actor `bob` matches the teacher only. -/
def sessionC4w : Session := buildSession [teacherRowC4w, studentRowC4w] clsRowC4w

/-- C5 witness session: a one-hour class, student two minutes late. -/
def sessionC5w : Session := buildSession [studentRowC5w] clsRowC5w

def settingsC8 : CompSettings :=
  { tardinessLimit := 5, cancellationWindow := 24, penaliseTardiness := true
    payLastMinuteCancellation := true, payStudentNoShow := true
    studentNoShowRate := 50, classTypeFilter := .both }

/-! ## Helper lemmas -/

theorem round2_hundredths (q : ℚ) : ∃ n : ℤ, round2 q = (n : ℚ) / 100 :=
  ⟨jsRound (q * 100), rfl⟩

/-! ## Claims -/

/-- C1: for every settings object, class type and counter bucket of the
Compensation Engine, the emitted `netCount` equals
`round2 (attended − late·[penaliseTardiness] + cancelled·[private ∧ payLastMinuteCancellation] − studentNoShow·(1 − rate/100 if payStudentNoShow else 1))`,
and it is an exact number of hundredths (2 decimal places). `pushType`
emits `netCountOf st ty` of each stored bucket (and of the all-zero
default bucket for absent durations). -/
theorem C1_netCount_formula (st : CompSettings) (ty : ClassType) (b : CompBucket) :
    netCountOf st ty b =
      round2 ((b.attended : ℚ)
        - (if st.penaliseTardiness then (b.late : ℚ) else 0)
        + (if ty = ClassType.privateClass ∧ st.payLastMinuteCancellation = true then
            (b.cancelled : ℚ) else 0)
        - (b.studentNoShow : ℚ)
          * (if st.payStudentNoShow then 1 - st.studentNoShowRate / 100 else 1))
    ∧ ∃ n : ℤ, netCountOf st ty b = (n : ℚ) / 100 := by
  have h : netCountOf st ty b =
      round2 ((b.attended : ℚ)
        - (if st.penaliseTardiness then (b.late : ℚ) else 0)
        + (if ty = ClassType.privateClass ∧ st.payLastMinuteCancellation = true then
            (b.cancelled : ℚ) else 0)
        - (b.studentNoShow : ℚ)
          * (if st.payStudentNoShow then 1 - st.studentNoShowRate / 100 else 1)) := by
    obtain ⟨tl, cw, pt, plc, psn, rate, fl⟩ := st
    cases pt <;> cases plc <;> cases psn <;> cases ty <;>
      simp [netCountOf, studentNoShowFrac]
  exact ⟨h, h ▸ round2_hundredths _⟩

unseal Rat.add Rat.mul Rat.inv Rat.sub in
/-- C2 (code bug): on a private session with **two** students who both
cancelled inside the window and were not attributed to the teacher,
`buildTeacherHourCountCSV` counts the `cancelled` credit **twice** —
the `return` inside the `forEach` callback of step 1a only ends that
iteration, so the credit is not capped at one per session, contrary to
the claim and to the source's own comment (`// Only count the first
such "late" student cancellation per class`). -/
theorem C2_credit_counted_twice :
    privCancelledCount (compReports settingsC2 [sessionC2]) "t1" (some 0) = some 2 ∧
    classTypeOf sessionC2 = ClassType.privateClass ∧
    sessionC2.students.length = 2 := by decide

/-- C6 counterexample: a non-empty but unparseable timestamp does not
yield 0; the difference is NaN (`none`). -/
theorem C6_counterexample :
    timestampDiff "garbage" "2023-01-15 10:00:00" ≠ some 0 := by decide

/-- C6 amended: the difference computation returns 0 when either
timestamp is **missing** (empty); in particular `scheduledDuration` is
0 when either the start or the end timestamp is absent. (A present but
unparseable timestamp instead gives NaN, not 0.) -/
theorem C6_zero_when_missing :
    (∀ a b : String, a = "" ∨ b = "" → timestampDiff a b = some 0)
    ∧ ∀ (participantsData : List (List String)) (cs : List String),
        jsGet cs 0 = "" ∨ jsGet cs 1 = "" →
          (buildSession participantsData cs).scheduledDuration = some 0 := by
  constructor
  · intro a b h
    rcases h with h | h <;> simp [timestampDiff, h]
  · intro parts cs h
    have hd : (buildSession parts cs).scheduledDuration =
        timestampDiff (jsGet cs 0) (jsGet cs 1) := rfl
    rcases h with h | h <;> rw [hd] <;> simp [timestampDiff, h]

/-- Class row with a start but no end timestamp, for the C6 witness. -/
def clsRowC6w : List String := ["2023-01-15 10:00:00", "", "", "", "", "", "c6w"]

/-- C6 witness: both amended statements at concrete inputs. -/
theorem C6_witness :
    timestampDiff "" "2023-01-15 10:00:00" = some 0 ∧
    (buildSession [] clsRowC6w).scheduledDuration = some 0 :=
  ⟨C6_zero_when_missing.1 "" "2023-01-15 10:00:00" (Or.inl rfl),
   C6_zero_when_missing.2 [] clsRowC6w (Or.inr rfl)⟩

/-- C7 counterexample: a session with seat capacity 0 and a teacher is
classified as group by the Compensation Engine, yet
`buildTeacherGroupClassesCSV` skips it entirely (`available_seats <= 1`),
so it is **not** classified as group in every report engine. -/
theorem C7_counterexample :
    sessionC7.available_seats = some 0 ∧ teacherUsername sessionC7 = "t1" ∧
    classTypeOf sessionC7 = ClassType.groupClass ∧
    groupClassesStats [sessionC7] = [] := by decide

/-- C7 amended: the Compensation Engine classifies a session as private
exactly when `available_seats` is the number 1 (strict equality; 0 and
non-numeric capacities are group there), but the teacher-performance
group report skips every session whose numeric capacity is ≤ 1, so
capacity-0 sessions appear in neither teacher-performance report. -/
theorem C7_strict_private_test :
    (∀ s : Session, classTypeOf s = ClassType.privateClass ↔ s.available_seats = some 1)
    ∧ ∀ (acc : List (String × GroupStats)) (s : Session) (n : Int),
        s.available_seats = some n → n ≤ 1 → groupStep acc s = acc := by
  constructor
  · intro s
    by_cases h : s.available_seats = some 1 <;> simp [classTypeOf, h]
  · intro acc s n hn hle
    unfold groupStep
    rw [hn]
    simp [decide_eq_false (not_lt.mpr hle)]

/-- C7 witness: the amended statements applied to the capacity-0
session. -/
theorem C7_witness :
    groupStep [] sessionC7 = [] ∧
    (classTypeOf sessionC7 = ClassType.privateClass ↔ sessionC7.available_seats = some 1) :=
  ⟨C7_strict_private_test.2 [] sessionC7 0 (by decide) (by decide),
   C7_strict_private_test.1 sessionC7⟩

/-- The `studentNoShow` counter of a bucket grows by the code's
condition `allStudentsNoShowCond` and nothing else. -/
theorem updateBucket_studentNoShow (st : CompSettings) (s : Session) (ty : ClassType)
    (tname : String) (b : CompBucket) :
    (updateBucket st s ty tname b).studentNoShow =
      b.studentNoShow + (if allStudentsNoShowCond s then 1 else 0) := by
  unfold updateBucket
  cases ty <;> cases hpay : st.payLastMinuteCancellation <;>
    cases hta : teacherAttendedFlag s <;> cases hsns : allStudentsNoShowCond s <;> simp [*]

/-- The code's step-1c test, spelled as a proposition. -/
theorem allStudentsNoShowCond_iff (s : Session) :
    allStudentsNoShowCond s = true ↔
      teacherAttendedFlag s = true ∧ teacherCancelledFlag s = false ∧
      s.students ≠ [] ∧ ∀ stu ∈ s.students, stu.attended = false := by
  simp [allStudentsNoShowCond, List.isEmpty_iff, List.all_eq_true, and_assoc]

unseal Rat.add Rat.mul Rat.inv Rat.sub in
/-- C3 counterexample: session `c3` is cancelled at session level (actor
`admin1`), the teacher attended (own cancelled flag false) and its only
student was absent — and the engine **does** increment `studentNoShow`,
so the increment is not guarded by "the session was not cancelled". -/
theorem C3_counterexample :
    sessionC3.cancelledBy = "admin1" ∧
    teacherAttendedFlag sessionC3 = true ∧
    privStudentNoShowCount (compReports settingsC3 [sessionC3]) "t1" (some 0) = some 1 := by
  decide

/-- C3 amended: per session, the bucket's `studentNoShow` counter grows
by exactly one when the teacher attended, the **teacher participant's
own cancelled flag** is false (not: the session was not cancelled),
there is at least one student and every student was marked absent — and
is unchanged otherwise. -/
theorem C3_studentNoShow_condition (st : CompSettings) (s : Session) (ty : ClassType)
    (tname : String) (b : CompBucket) :
    (updateBucket st s ty tname b).studentNoShow =
      b.studentNoShow +
        (if teacherAttendedFlag s = true ∧ teacherCancelledFlag s = false ∧
            s.students ≠ [] ∧ (∀ stu ∈ s.students, stu.attended = false) then 1 else 0) := by
  rw [updateBucket_studentNoShow]
  congr 1
  by_cases h : allStudentsNoShowCond s = true
  · rw [if_pos h, if_pos ((allStudentsNoShowCond_iff s).mp h)]
  · rw [if_neg h, if_neg (fun hc => h ((allStudentsNoShowCond_iff s).mpr hc))]

/-- The three cancellation flags of a normalized session share the
guard `cancelledBy ≠ ''`; admin is the conjunction of the other two
flags' negations. -/
theorem buildSession_flags (participantsData : List (List String)) (cs : List String) :
    ∃ x y : Bool,
      (buildSession participantsData cs).cancelledByStudent = ((jsGet cs 22 != "") && x) ∧
      (buildSession participantsData cs).cancelledByTeacher = ((jsGet cs 22 != "") && y) ∧
      (buildSession participantsData cs).cancelledByAdmin = ((jsGet cs 22 != "") && !x && !y) :=
  ⟨_, _, rfl, rfl, rfl⟩

/-- Exhaustiveness, fallback and conditional exclusivity of a
`(x, y, !x && !y)` flag triple. -/
theorem fallback_flags (x y : Bool) :
    (x = true ∨ y = true ∨ (!x && !y) = true)
    ∧ ((!x && !y) = true ↔ x = false ∧ y = false)
    ∧ (¬(x = true ∧ y = true) → exactlyOneFlag x y (!x && !y)) := by
  cases x <;> cases y <;> simp [exactlyOneFlag]

/-- C4 counterexample: in session `c4` the cancellation actor `alice`
is both the teacher's username and a student's username, and **both**
`cancelledByStudent` and `cancelledByTeacher` are set, so the three
flags are not mutually exclusive. -/
theorem C4_counterexample :
    sessionC4.cancelledBy ≠ "" ∧
    sessionC4.cancelledByStudent = true ∧ sessionC4.cancelledByTeacher = true := by decide

/-- C4 amended: whenever `cancelledByRaw` is non-empty, at least one
flag is set and admin is exactly "matches neither the teacher's nor any
student's username" (the fallback); exactly one flag is set **unless**
the actor matches both the teacher's and a student's username, in which
case student and teacher are both set. -/
theorem C4_flags (participantsData : List (List String)) (cs : List String)
    (h : (buildSession participantsData cs).cancelledBy ≠ "") :
    ((buildSession participantsData cs).cancelledByStudent = true ∨
      (buildSession participantsData cs).cancelledByTeacher = true ∨
      (buildSession participantsData cs).cancelledByAdmin = true)
    ∧ ((buildSession participantsData cs).cancelledByAdmin = true ↔
        (buildSession participantsData cs).cancelledByStudent = false ∧
        (buildSession participantsData cs).cancelledByTeacher = false)
    ∧ (¬((buildSession participantsData cs).cancelledByStudent = true ∧
          (buildSession participantsData cs).cancelledByTeacher = true) →
        exactlyOneFlag (buildSession participantsData cs).cancelledByStudent
          (buildSession participantsData cs).cancelledByTeacher
          (buildSession participantsData cs).cancelledByAdmin) := by
  obtain ⟨x, y, hx, hy, hz⟩ := buildSession_flags participantsData cs
  have hcb : (jsGet cs 22 != "") = true := by
    have hraw : (buildSession participantsData cs).cancelledBy = jsGet cs 22 := rfl
    rw [hraw] at h
    simpa [bne_iff_ne] using h
  rw [hx, hy, hz, hcb]
  simpa using fallback_flags x y

/-- C4 witness: on session `c4w` (actor matches the teacher only) the
amended statement instantiates with its hypothesis discharged. -/
theorem C4_witness :
    (sessionC4w.cancelledByStudent = true ∨ sessionC4w.cancelledByTeacher = true ∨
      sessionC4w.cancelledByAdmin = true)
    ∧ (sessionC4w.cancelledByAdmin = true ↔
        sessionC4w.cancelledByStudent = false ∧ sessionC4w.cancelledByTeacher = false)
    ∧ (¬(sessionC4w.cancelledByStudent = true ∧ sessionC4w.cancelledByTeacher = true) →
        exactlyOneFlag sessionC4w.cancelledByStudent sessionC4w.cancelledByTeacher
          sessionC4w.cancelledByAdmin) :=
  C4_flags [teacherRowC4w, studentRowC4w] clsRowC4w (by decide)

/-- When the clamp's upper bound `d` is at least the lower bound, any
numeric result of `clampTardiness` lies in `[-3600, d]`. -/
theorem clampTardiness_mem (r d t : Int) (hd : -3600 ≤ d)
    (h : clampTardiness (some r) (some d) = some t) : -3600 ≤ t ∧ t ≤ d := by
  have h' : (if r < -3600 then (some (-3600) : Option Int)
      else if r > d then some d else some r) = some t := h
  split_ifs at h' with h1 h2
  · cases h'
    exact ⟨le_refl _, hd⟩
  · cases h'
    exact ⟨hd, le_refl _⟩
  · cases h'
    exact ⟨not_lt.mp h1, not_lt.mp h2⟩

/-- C5 counterexample: in session `c5` the end timestamp lies three
hours before the start, so `scheduledDuration = -10800`; the student's
raw tardiness 0 is clamped **up to the bound `d`**, giving
`tardiness = -10800`, which is not in `[-3600, scheduledDuration]`. -/
theorem C5_counterexample :
    ¬ ∀ stu ∈ sessionC5.students, ∀ t, stu.tardiness = some t →
        ∀ d, sessionC5.scheduledDuration = some d → -3600 ≤ t ∧ t ≤ d := by decide

/-- C5 amended: provided the session's `scheduledDuration` is a number
at least `-3600` (in particular whenever it is nonnegative, i.e. the
end does not precede the start by over an hour), every participant's
numeric tardiness lies in `[-3600, scheduledDuration]`; a tardiness
whose join-time difference failed to parse is NaN and carries no
numeric value. -/
theorem C5_tardiness_clamped (participantsData : List (List String)) (cs : List String)
    (d : Int) (hd : (buildSession participantsData cs).scheduledDuration = some d)
    (hdge : -3600 ≤ d) :
    (∀ stu ∈ (buildSession participantsData cs).students,
        ∀ t, stu.tardiness = some t → -3600 ≤ t ∧ t ≤ d)
    ∧ ∀ tr, (buildSession participantsData cs).teacher = some tr →
        ∀ t, tr.tardiness = some t → -3600 ≤ t ∧ t ≤ d := by
  have hd' : timestampDiff (jsGet cs 0) (jsGet cs 1) = some d := hd
  constructor
  · intro stu hstu t ht
    have hstu' : stu ∈ (((participantsData.filter (fun p => jsGet p 2 == jsGet cs 6)).filter
        (fun p => !isTeacherRow p)).map
        (mkStudent (jsGet cs 0) (timestampDiff (jsGet cs 0) (jsGet cs 1)))) := hstu
    obtain ⟨pr, _, rfl⟩ := List.mem_map.mp hstu'
    have ht' : clampTardiness (timestampDiff (jsGet pr 3) (jsGet pr 11))
        (timestampDiff (jsGet cs 0) (jsGet cs 1)) = some t := ht
    rw [hd'] at ht'
    cases hraw : timestampDiff (jsGet pr 3) (jsGet pr 11) with
    | none => rw [hraw] at ht'; simp [clampTardiness] at ht'
    | some r => exact clampTardiness_mem r d t hdge (hraw ▸ ht')
  · intro tr htr t ht
    have htr' : ((participantsData.filter (fun p => jsGet p 2 == jsGet cs 6)).find?
        isTeacherRow).map (mkTeacher (timestampDiff (jsGet cs 0) (jsGet cs 1))) = some tr := htr
    obtain ⟨pr, _, rfl⟩ := Option.map_eq_some'.mp htr'
    have ht' : clampTardiness (timestampDiff (jsGet pr 3) (jsGet pr 11))
        (timestampDiff (jsGet cs 0) (jsGet cs 1)) = some t := ht
    rw [hd'] at ht'
    cases hraw : timestampDiff (jsGet pr 3) (jsGet pr 11) with
    | none => rw [hraw] at ht'; simp [clampTardiness] at ht'
    | some r => exact clampTardiness_mem r d t hdge (hraw ▸ ht')

/-- C5 witness: the amended statement on the one-hour class `c5w`
(duration 3600 seconds, student two minutes late). -/
theorem C5_witness :
    (∀ stu ∈ sessionC5w.students, ∀ t, stu.tardiness = some t → -3600 ≤ t ∧ t ≤ 3600)
    ∧ ∀ tr, sessionC5w.teacher = some tr →
        ∀ t, tr.tardiness = some t → -3600 ≤ t ∧ t ≤ 3600 :=
  C5_tardiness_clamped [studentRowC5w] clsRowC5w 3600 (by decide) (by decide)

/-- `tally` always counts the session: `total` grows by one. -/
theorem tallyUpd_total (w : ℚ) (ty : ClassType) (cls : Session) (b : TallyBucket) :
    (tallyUpd w ty cls b).total = b.total + 1 := by
  unfold tallyUpd
  cases ty <;>
    cases h1 : teacherAttendedFlag cls <;>
    cases h2 : cls.cancelledBy != "" <;>
    cases h3 : cls.cancelledByStudent <;>
    cases h4 : cls.cancelledByTeacher <;>
    cases h5 : cls.cancelledByAdmin <;>
    cases h6 : lateStudentCancel w cls <;>
    cases h7 : (!cls.students.isEmpty && cls.students.all fun stu => !stu.attended) <;>
    simp [*]

/-- `tally` reads the teacher only through `cls.teacher.attended`:
a session with no teacher is tallied exactly like the same session
with a non-attending teacher. -/
theorem tallyUpd_teacher_absent (w : ℚ) (ty : ClassType) (s : Session) (b : TallyBucket)
    (hs : s.teacher = none) (tr : TeacherRec) (htr : tr.attended = false) :
    tallyUpd w ty s b = tallyUpd w ty { s with teacher := some tr } b := by
  have h1 : teacherAttendedFlag s = false := by simp [teacherAttendedFlag, hs]
  have h2 : teacherAttendedFlag { s with teacher := some tr } = false := by
    simp [teacherAttendedFlag, htr]
  unfold tallyUpd
  rw [h1, h2]
  simp [lateStudentCancel]

/-- C8: (a) when no participant row of a session carries the teacher
marker, the normalized `teacher` stays empty; (b) the Compensation
Engine's aggregation step leaves its accumulator untouched for a
session with no teacher, so no output row receives any contribution
from it; (c) the Overview tally still counts such a session (`total`
grows), treating teacher-attendance exactly as it treats an absent
teacher. -/
theorem C8_no_teacher :
    (∀ (participantsData : List (List String)) (cs : List String),
        (participantsData.filter (fun p => jsGet p 2 == jsGet cs 6)).find? isTeacherRow = none →
          (buildSession participantsData cs).teacher = none)
    ∧ (∀ (st : CompSettings) (acc : CompAcc) (s : Session),
        s.teacher = none → compStep st acc s = acc)
    ∧ ∀ (w : ℚ) (ty : ClassType) (s : Session) (b : TallyBucket),
        s.teacher = none →
          (tallyUpd w ty s b).total = b.total + 1
          ∧ ∀ tr : TeacherRec, tr.attended = false →
              tallyUpd w ty s b = tallyUpd w ty { s with teacher := some tr } b := by
  refine ⟨?_, ?_, ?_⟩
  · intro parts cs h
    have hteq : (buildSession parts cs).teacher =
        ((parts.filter (fun p => jsGet p 2 == jsGet cs 6)).find? isTeacherRow).map
          (mkTeacher (timestampDiff (jsGet cs 0) (jsGet cs 1))) := rfl
    rw [hteq, h]
    rfl
  · intro st acc s hs
    have hu : teacherUsername s = "" := by simp [teacherUsername, hs]
    simp [compStep, hu]
  · intro w ty s b hs
    exact ⟨tallyUpd_total w ty s b, fun tr htr => tallyUpd_teacher_absent w ty s b hs tr htr⟩

/-- C8 witness: session `c8` has a student row but no teacher-marked
row; all three parts instantiate on it. -/
theorem C8_witness :
    (buildSession [studentRowC8] clsRowC8).teacher = none
    ∧ compStep settingsC8 [] sessionC8 = []
    ∧ (tallyUpd 24 ClassType.groupClass sessionC8 emptyTallyBucket).total =
        emptyTallyBucket.total + 1
    ∧ tallyUpd 24 ClassType.groupClass sessionC8 emptyTallyBucket =
        tallyUpd 24 ClassType.groupClass { sessionC8 with teacher := some absentTeacherRec }
          emptyTallyBucket :=
  ⟨C8_no_teacher.1 [studentRowC8] clsRowC8 (by decide),
   C8_no_teacher.2.1 settingsC8 [] sessionC8 (by decide),
   (C8_no_teacher.2.2 24 ClassType.groupClass sessionC8 emptyTallyBucket (by decide)).1,
   (C8_no_teacher.2.2 24 ClassType.groupClass sessionC8 emptyTallyBucket (by decide)).2
     absentTeacherRec (by decide)⟩

/-- C9: for every course group of the cross-course overview, the
attendance rate is blank (`none`) when the group has zero student
participations, equals `Math.round(attended / total * 100)` (Mathlib's
`round`) otherwise, and every emitted rate lies in `[0, 100]`. -/
theorem C9_attendance_rate (sessions : List Session) (cid : String) (g : List Session)
    (_hmem : (cid, g) ∈ groupByCourse sessions) :
    (totalParticipations g = 0 → attendanceRateOf g = none)
    ∧ (totalParticipations g ≠ 0 →
        attendanceRateOf g =
          some (round ((attendedCount g : ℚ) / (totalParticipations g : ℚ) * 100)))
    ∧ ∀ r, attendanceRateOf g = some r → 0 ≤ r ∧ r ≤ 100 := by
  refine ⟨fun h => by simp [attendanceRateOf, h], fun h => by
    simp [attendanceRateOf, h, jsRound_eq_round], fun r hr => ?_⟩
  unfold attendanceRateOf at hr
  by_cases h0 : totalParticipations g = 0
  · rw [if_pos h0] at hr
    cases hr
  · rw [if_neg h0] at hr
    have hx : r = jsRound ((attendedCount g : ℚ) / (totalParticipations g : ℚ) * 100) :=
      (Option.some.inj hr).symm
    subst hx
    have hle : attendedCount g ≤ totalParticipations g := List.countP_le_length _
    have htpos : 0 < totalParticipations g := Nat.pos_of_ne_zero h0
    have htq : (0 : ℚ) < (totalParticipations g : ℚ) := by exact_mod_cast htpos
    have hx0 : (0 : ℚ) ≤ (attendedCount g : ℚ) / (totalParticipations g : ℚ) * 100 := by
      positivity
    have hx100 : (attendedCount g : ℚ) / (totalParticipations g : ℚ) * 100 ≤ 100 := by
      have hdiv : (attendedCount g : ℚ) / (totalParticipations g : ℚ) ≤ 1 := by
        rw [div_le_one htq]
        exact_mod_cast hle
      nlinarith
    rw [jsRound_eq_round, round_eq]
    constructor
    · exact Int.le_floor.mpr (by push_cast; linarith)
    · have hfl : (⌊(attendedCount g : ℚ) / (totalParticipations g : ℚ) * 100 + 1 / 2⌋ : ℤ) ≤
          ⌊(201 : ℚ) / 2⌋ := Int.floor_le_floor (by linarith)
      have h201 : (⌊(201 : ℚ) / 2⌋ : ℤ) = 100 := by norm_num
      rw [h201] at hfl
      exact hfl

unseal Rat.add Rat.mul Rat.inv Rat.sub in
/-- C9 witness: the course `crs9` has two classes with one student who
attends once; the rate is 50 and the theorem instantiates on the
group. -/
theorem C9_witness :
    ((totalParticipations sessionsC9 = 0 → attendanceRateOf sessionsC9 = none)
    ∧ (totalParticipations sessionsC9 ≠ 0 →
        attendanceRateOf sessionsC9 =
          some (round ((attendedCount sessionsC9 : ℚ) / (totalParticipations sessionsC9 : ℚ) * 100)))
    ∧ ∀ r, attendanceRateOf sessionsC9 = some r → 0 ≤ r ∧ r ≤ 100)
    ∧ attendanceRateOf sessionsC9 = some 50 :=
  ⟨C9_attendance_rate sessionsC9 "crs9" sessionsC9 (by decide), by decide⟩

/-- The statistics update never changes a record's `company`. -/
theorem applyStudentStats_company (opts : StudentOptions) (cls : Session) (stu : StudentRec)
    (a : StudentAgg) : (applyStudentStats opts cls stu a).company = a.company := by
  unfold applyStudentStats
  cases hr : parseFloatJs stu.rating <;>
    simp [hr, apply_ite (fun x : StudentAgg => x.company)]

/-- One student row keeps an existing record's `company`. -/
theorem studentUpd_lookup_preserved (opts : StudentOptions) (cls : Session)
    (acc : List (String × StudentAgg)) (stu : StudentRec) (u : String) (a : StudentAgg)
    (h : lookupA u acc = some a) :
    ∃ b, lookupA u (studentUpd opts cls acc stu) = some b ∧ b.company = a.company := by
  unfold studentUpd
  split_ifs with h1 h2
  · exact ⟨a, h, rfl⟩
  · exact ⟨a, h, rfl⟩
  · rw [lookupA_updAssoc]
    by_cases hu : u = stu.username
    · rw [if_pos hu]
      refine ⟨_, rfl, ?_⟩
      rw [hu] at h
      rw [h]
      exact applyStudentStats_company opts cls stu a
    · rw [if_neg hu]
      exact ⟨a, h, rfl⟩

/-- The whole students loop of one class keeps an existing record's
`company`. -/
theorem foldStudents_lookup_preserved (opts : StudentOptions) (cls : Session)
    (rows : List StudentRec) : ∀ (acc : List (String × StudentAgg)) (u : String) (a : StudentAgg),
    lookupA u acc = some a →
      ∃ b, lookupA u (rows.foldl (studentUpd opts cls) acc) = some b ∧ b.company = a.company := by
  induction rows with
  | nil => exact fun acc u a h => ⟨a, h, rfl⟩
  | cons stu rest ih =>
    intro acc u a h
    obtain ⟨b, hb, hbc⟩ := studentUpd_lookup_preserved opts cls acc stu u a h
    obtain ⟨c, hc, hcc⟩ := ih (studentUpd opts cls acc stu) u b hb
    exact ⟨c, by simpa using hc, hcc.trans hbc⟩

/-- A row that does not create `u`'s record leaves `u` absent. -/
theorem studentUpd_lookup_none (opts : StudentOptions) (cls : Session)
    (acc : List (String × StudentAgg)) (stu : StudentRec) (u : String)
    (h : lookupA u acc = none) (hb : rowCreates opts u stu = false) :
    lookupA u (studentUpd opts cls acc stu) = none := by
  unfold studentUpd
  split_ifs with h1 h2
  · exact h
  · exact h
  · rw [lookupA_updAssoc]
    have hu : u ≠ stu.username := by
      intro he
      have hinc : studentIncluded opts stu.username = true := by simpa using h2
      have hct : rowCreates opts u stu = true := by
        simp [rowCreates, he, hinc, h1, bne_iff_ne]
      rw [hct] at hb
      simp at hb
    rw [if_neg hu]
    exact h

/-- A row that does create `u`'s record installs the class's company. -/
theorem studentUpd_lookup_creates (opts : StudentOptions) (cls : Session)
    (acc : List (String × StudentAgg)) (stu : StudentRec) (u : String)
    (h : lookupA u acc = none) (hb : rowCreates opts u stu = true) :
    ∃ b, lookupA u (studentUpd opts cls acc stu) = some b ∧ b.company = cls.company := by
  have hbe : stu.username = u ∧ stu.username ≠ "" ∧ studentIncluded opts stu.username = true := by
    simpa [rowCreates, bne_iff_ne, and_assoc] using hb
  obtain ⟨he, hne, hinc⟩ := hbe
  unfold studentUpd
  rw [if_neg (by rw [he] at hne ⊢; exact hne), if_neg (by rw [hinc]; simp)]
  rw [lookupA_updAssoc, if_pos he.symm]
  refine ⟨_, rfl, ?_⟩
  rw [← he] at h
  rw [h]
  exact applyStudentStats_company opts cls stu (initStudentAgg stu.username cls.company)

/-- Over one class's students loop, a record for `u` appears exactly
when some row creates it, and then its `company` is the class's. -/
theorem foldStudents_lookup_new (opts : StudentOptions) (cls : Session)
    (rows : List StudentRec) : ∀ (acc : List (String × StudentAgg)) (u : String),
    lookupA u acc = none →
      (rows.any (rowCreates opts u) = false →
        lookupA u (rows.foldl (studentUpd opts cls) acc) = none)
      ∧ (rows.any (rowCreates opts u) = true →
          ∃ b, lookupA u (rows.foldl (studentUpd opts cls) acc) = some b ∧
            b.company = cls.company) := by
  induction rows with
  | nil =>
    intro acc u h
    exact ⟨fun _ => h, by simp⟩
  | cons stu rest ih =>
    intro acc u h
    constructor
    · intro hany
      rw [List.any_cons, Bool.or_eq_false_iff] at hany
      have hacc' := studentUpd_lookup_none opts cls acc stu u h hany.1
      simpa using (ih (studentUpd opts cls acc stu) u hacc').1 hany.2
    · intro hany
      by_cases hstu : rowCreates opts u stu = true
      · obtain ⟨b, hb, hbc⟩ := studentUpd_lookup_creates opts cls acc stu u h hstu
        obtain ⟨c, hc, hcc⟩ :=
          foldStudents_lookup_preserved opts cls rest (studentUpd opts cls acc stu) u b hb
        exact ⟨c, by simpa using hc, hcc.trans hbc⟩
      · have hstu' : rowCreates opts u stu = false := by
          cases hcr : rowCreates opts u stu
          · rfl
          · exact absurd hcr hstu
        have hrest : rest.any (rowCreates opts u) = true := by
          rw [List.any_cons, hstu'] at hany
          simpa using hany
        have hacc' := studentUpd_lookup_none opts cls acc stu u h hstu'
        obtain ⟨b, hb, hbc⟩ := (ih (studentUpd opts cls acc stu) u hacc').2 hrest
        exact ⟨b, by simpa using hb, hbc⟩

/-- One class keeps an existing record's `company`. -/
theorem studentStep_lookup_preserved (opts : StudentOptions)
    (acc : List (String × StudentAgg)) (cls : Session) (u : String) (a : StudentAgg)
    (h : lookupA u acc = some a) :
    ∃ b, lookupA u (studentStep opts acc cls) = some b ∧ b.company = a.company := by
  unfold studentStep
  split_ifs with h1
  · exact ⟨a, h, rfl⟩
  · exact foldStudents_lookup_preserved opts cls cls.students acc u a h

/-- Over one class, a previously absent record for `u` appears exactly
when the class includes `u` (class filter passed and some row creates
the record), and then its `company` is that class's company. -/
theorem studentStep_lookup_new (opts : StudentOptions) (acc : List (String × StudentAgg))
    (cls : Session) (u : String) (h : lookupA u acc = none) :
    (sessionIncludesStudent opts u cls = false → lookupA u (studentStep opts acc cls) = none)
    ∧ (sessionIncludesStudent opts u cls = true →
        ∃ b, lookupA u (studentStep opts acc cls) = some b ∧ b.company = cls.company) := by
  unfold studentStep sessionIncludesStudent
  by_cases hcl : classIncluded opts cls = true
  · rw [hcl]
    simp only [Bool.true_and, Bool.not_true, Bool.false_eq_true, if_false]
    exact foldStudents_lookup_new opts cls cls.students acc u h
  · have hcl' : classIncluded opts cls = false := by
      cases hc : classIncluded opts cls
      · rfl
      · exact absurd hc hcl
    rw [hcl']
    simp only [Bool.false_and, Bool.not_false, if_true]
    exact ⟨fun _ => h, by simp⟩

/-- The fold of `buildStudentReport` over the model: any record that
comes out either was already in the accumulator (company preserved) or
was created by the first session of the list that includes the student
(company taken from that session). -/
theorem studentAggs_fold (opts : StudentOptions) :
    ∀ (sessions : List Session) (acc : List (String × StudentAgg)) (u : String)
      (agg : StudentAgg),
      lookupA u (sessions.foldl (studentStep opts) acc) = some agg →
        (∃ a, lookupA u acc = some a ∧ agg.company = a.company)
        ∨ (lookupA u acc = none ∧
            ∃ cls, sessions.find? (sessionIncludesStudent opts u) = some cls ∧
              agg.company = cls.company) := by
  intro sessions
  induction sessions with
  | nil =>
    intro acc u agg h
    exact Or.inl ⟨agg, by simpa using h, rfl⟩
  | cons cls rest ih =>
    intro acc u agg h
    rw [List.foldl_cons] at h
    rcases hacc : lookupA u acc with _ | a
    · by_cases hinc : sessionIncludesStudent opts u cls = true
      · obtain ⟨b, hb, hbc⟩ := (studentStep_lookup_new opts acc cls u hacc).2 hinc
        rcases ih (studentStep opts acc cls) u agg h with ⟨a', ha', hac⟩ | ⟨hnone, _⟩
        · refine Or.inr ⟨rfl, cls, ?_, ?_⟩
          · rw [List.find?_cons_of_pos _ hinc]
          · rw [ha'] at hb
            rw [hac, Option.some.inj hb, hbc]
        · rw [hnone] at hb
          cases hb
      · have hinc' : sessionIncludesStudent opts u cls = false := by
          cases hc : sessionIncludesStudent opts u cls
          · rfl
          · exact absurd hc hinc
        have hnone' := (studentStep_lookup_new opts acc cls u hacc).1 hinc'
        rcases ih (studentStep opts acc cls) u agg h with ⟨a', ha', _⟩ | ⟨_, cls', hfind, hcomp⟩
        · rw [hnone'] at ha'
          cases ha'
        · refine Or.inr ⟨rfl, cls', ?_, hcomp⟩
          rw [List.find?_cons_of_neg _ (by simp [hinc'])]
          exact hfind
    · obtain ⟨b, hb, hbc⟩ := studentStep_lookup_preserved opts acc cls u a hacc
      rcases ih (studentStep opts acc cls) u agg h with ⟨a', ha', hac⟩ | ⟨hnone, _⟩
      · refine Or.inl ⟨a, rfl, ?_⟩
        rw [ha'] at hb
        rw [hac, Option.some.inj hb, hbc]
      · rw [hnone] at hb
        cases hb

/-- C10: every student row `buildStudentReport` emits carries the
company of the **first** included session (in model enumeration order)
in which the student appears — later included sessions with different
companies never overwrite it. -/
theorem C10_company_from_first_session (opts : StudentOptions) (sessions : List Session)
    (u : String) (agg : StudentAgg)
    (h : lookupA u (studentAggs opts sessions) = some agg) :
    ∃ cls, sessions.find? (sessionIncludesStudent opts u) = some cls ∧
      agg.company = cls.company := by
  rcases studentAggs_fold opts sessions [] u agg h with ⟨a, ha, _⟩ | ⟨_, cls, hf, hc⟩
  · cases ha
  · exact ⟨cls, hf, hc⟩

unseal Rat.add Rat.mul Rat.inv Rat.sub in
/-- C10 witness: `st1` appears in two sessions whose companies differ
(`compA` then `compB`); the emitted record carries `compA`, the company
of the first. -/
theorem C10_witness :
    (∃ cls, sessionsC10.find? (sessionIncludesStudent optionsC10 "st1") = some cls ∧
      aggC10.company = cls.company)
    ∧ aggC10.company = "compA" :=
  ⟨C10_company_from_first_session optionsC10 sessionsC10 "st1" aggC10 (by decide),
   by decide⟩
